import Mathlib

/-!
Verification of the Corinthian forensic CCTV pipeline.

Shallow embedding of the repository's Python sources:
  * `src/src/tdetection.py`      — tamper-detection state machine
  * `src/src/metadata.py`        — append-only evidence ledger (CSV audit log)
  * `src/src/ai_detection.py`    — person detection / similarity normalization
  * `src/src/car_detection.py`   — vehicle detection timestamp logging
  * `src/dashboard/app.py`       — pipeline driver ("Process File" handler)
  * `src/dashboard/generate_report.py` — PDF report assembly

Python floats are modelled as exact rationals (ℚ); external libraries
(OpenCV, YOLO, face_recognition, hashlib, easyocr) are modelled as opaque
inputs/parameters, since the repository only consumes their outputs.
-/

namespace Corinthian

/- ===================================================================
   Tamper detection — src/src/tdetection.py, run_tamper_detection
   =================================================================== -/

/-- Module constant `LAP_VAR_THRESHOLD = 5` (tdetection.py line 9). -/
def LAP_VAR_THRESHOLD : ℚ := 5

/-- Module constant `BRIGHTNESS_DROP = 0.05` (tdetection.py line 10). -/
def BRIGHTNESS_DROP : ℚ := 1 / 20

/-- `persistence_frames = max(1, int(PERSISTENCE_SECONDS * SAMPLE_FPS))`
(tdetection.py line 65) with `PERSISTENCE_SECONDS = 0.6`, `SAMPLE_FPS = 4`;
Python `int()` truncates toward zero, which on the nonnegative product is
the floor. -/
def persistence_frames : Nat := max 1 (Int.toNat ⌊(6 / 10 : ℚ) * 4⌋)

/-- `brightness_ratio = bright / (baseline_brightness + 1e-6)`
(tdetection.py line 88). -/
def brightnessRatio (baseline bright : ℚ) : ℚ :=
  bright / (baseline + 1 / 1000000)

/-- Badness test of one sample:
`lap_var < LAP_VAR_THRESHOLD or brightness_ratio < BRIGHTNESS_DROP`
(tdetection.py line 90), with the two thresholds kept as parameters. -/
def isBadSample (lapThresh brightThresh sharp ratio : ℚ) : Bool :=
  decide (sharp < lapThresh) || decide (ratio < brightThresh)

/-- Kind of an emitted tamper event, identified by which transition of
`run_tamper_detection` appended it: the `cover_counter >= persistence_frames
and not cover_active` branch (CoverStart, line 95) or the
`cover_active and cover_counter == 0` branch (CoverEnd, line 100).
The Python code appends only the bare timestamp; the kind is the tag of
the branch that appended it. -/
inductive EventKind : Type
  | CoverStart : EventKind
  | CoverEnd : EventKind
deriving DecidableEq, Repr

/-- Mutable loop state of `run_tamper_detection`: `cover_counter` and
`cover_active` (tdetection.py lines 69, 71). -/
structure TamperState : Type where
  counter : Nat
  active : Bool
deriving DecidableEq, Repr

/-- Initial loop state: `cover_counter = 0`, `cover_active = False`. -/
def initTamperState : TamperState := ⟨0, false⟩

/-- One iteration of the per-sample body of `run_tamper_detection`
(tdetection.py lines 90-103): update `cover_counter`, then either emit a
CoverStart (lines 95-98), emit a CoverEnd (lines 100-103), or emit
nothing. -/
def tamperStep (persistence : Nat) (bad : Bool) (s : TamperState) :
    TamperState × Option EventKind :=
  let c := if bad then s.counter + 1 else 0
  if persistence ≤ c ∧ s.active = false then
    (⟨c, true⟩, some EventKind.CoverStart)
  else if s.active = true ∧ c = 0 then
    (⟨c, false⟩, some EventKind.CoverEnd)
  else
    (⟨c, s.active⟩, none)

/-- Run the state machine over a stream of per-sample badness flags,
starting at sample index `i` in state `s`, collecting the emitted events
tagged with the index of the sample that emitted them. -/
def runTamperFrom (persistence : Nat) (s : TamperState) (i : Nat) :
    List Bool → List (Nat × EventKind)
  | [] => []
  | b :: rest =>
    let r := tamperStep persistence b s
    match r.2 with
    | none => runTamperFrom persistence r.1 (i + 1) rest
    | some k => (i, k) :: runTamperFrom persistence r.1 (i + 1) rest

/-- Tagged event stream of a whole run from the initial state. -/
def runTamperTagged (persistence : Nat) (bads : List Bool) :
    List (Nat × EventKind) :=
  runTamperFrom persistence initTamperState 0 bads

/-- The list the Python code actually accumulates in `tamper_events`:
bare sample positions (the code stores `frame_idx / fps`, a strictly
monotone function of the sample position), with no kind tag
(tdetection.py lines 98, 103). -/
def runTamperRawFrom (persistence : Nat) (s : TamperState) (i : Nat) :
    List Bool → List Nat
  | [] => []
  | b :: rest =>
    let r := tamperStep persistence b s
    match r.2 with
    | none => runTamperRawFrom persistence r.1 (i + 1) rest
    | some _ => i :: runTamperRawFrom persistence r.1 (i + 1) rest

/-- Untagged event stream of a whole run, as returned by
`run_tamper_detection`. -/
def runTamperRaw (persistence : Nat) (bads : List Bool) : List Nat :=
  runTamperRawFrom persistence initTamperState 0 bads

/-- Per-sample badness flags of a metric stream `(sharpness, brightness)`:
`baseline_brightness` is the brightness of the first sample
(tdetection.py lines 85-88), and every sample (the first included) is
compared through `brightnessRatio` against that baseline. -/
def metricsToBad (lapThresh brightThresh : ℚ) :
    List (ℚ × ℚ) → List Bool
  | [] => []
  | (s0, b0) :: rest =>
    ((s0, b0) :: rest).map
      (fun m => isBadSample lapThresh brightThresh m.1 (brightnessRatio b0 m.2))

/-- Whole tamper run over a metric stream, tagged events. -/
def runTamperMetrics (persistence : Nat) (lapThresh brightThresh : ℚ)
    (samples : List (ℚ × ℚ)) : List (Nat × EventKind) :=
  runTamperTagged persistence (metricsToBad lapThresh brightThresh samples)

/-- Whole tamper run over a metric stream, bare event positions as the
Python function returns them. -/
def run_tamper_detection (persistence : Nat) (lapThresh brightThresh : ℚ)
    (samples : List (ℚ × ℚ)) : List Nat :=
  runTamperRaw persistence (metricsToBad lapThresh brightThresh samples)

/-- Hysteresis invariant of the loop state: while the machine is in
`Normal` (`cover_active = False`), the consecutive-bad counter has not yet
reached the persistence threshold. -/
def TamperInv (persistence : Nat) (s : TamperState) : Prop :=
  s.active = false → s.counter < persistence

/- ===================================================================
   Evidence ledger — src/src/metadata.py
   =================================================================== -/

/-- One row of the CSV audit log `audit_log.csv`, as written by
`log_evidence_from_streamlit` (metadata.py lines 91-105): columns
filename, sha256, ingest_time, camera_id, duration_sec, metadata_json. -/
structure LedgerRow : Type where
  filename : String
  sha256 : String
  ingest_time : String
  camera_id : String
  duration_sec : Option ℚ
  metadata_json : String
deriving DecidableEq, Repr

/-- One append request: the uploaded file's bytes together with the
filename and metadata the code computes for the row. -/
structure AppendRequest : Type where
  file_bytes : List Nat
  filename : String
  ingest_time : String
  camera_id : String
  duration_sec : Option ℚ
  metadata_json : String
deriving DecidableEq, Repr

/-- The row `log_evidence_from_streamlit` writes for a request: column
`sha256` is the digest of the uploaded bytes (metadata.py lines 87,
91-98). `digest` stands for `hashlib.sha256(...).hexdigest()`
(metadata.py lines 28-31), an external primitive the module only calls. -/
def mkLedgerRow (digest : List Nat → String) (req : AppendRequest) :
    LedgerRow :=
  ⟨req.filename, digest req.file_bytes, req.ingest_time, req.camera_id,
    req.duration_sec, req.metadata_json⟩

/-- `log_evidence_from_streamlit` (metadata.py lines 83-107): hash the
uploaded bytes and append one row to the audit log, unconditionally — there
is no duplicate check of any kind; returns the hash and the new ledger. -/
def log_evidence (digest : List Nat → String) (ledger : List LedgerRow)
    (req : AppendRequest) : String × List LedgerRow :=
  (digest req.file_bytes, ledger ++ [mkLedgerRow digest req])

/-- `verify_file_from_bytes` (metadata.py lines 109-117): recompute the
hash of the given bytes and test membership in the `sha256` column over all
rows of the audit log; an absent audit-log file reads as the empty
ledger. -/
def verify_file_from_bytes (digest : List Nat → String)
    (ledger : List LedgerRow) (file_bytes : List Nat) : Bool :=
  decide (digest file_bytes ∈ ledger.map (fun r => r.sha256))

/-- The audit log produced by a run performing the given appends in order,
starting from an absent file. -/
def runAppends (digest : List Nat → String) (reqs : List AppendRequest) :
    List LedgerRow :=
  reqs.foldl (fun L req => (log_evidence digest L req).2) []

/- ===================================================================
   Timestamp formatting shared by the detectors
   =================================================================== -/

/-- `_format_ts(frame_idx / max(fps, 1.0))` (ai_detection.py lines 9-10,
car_detection.py lines 76-77) renders `str(timedelta(...))` truncated at
the decimal point, i.e. the whole number of seconds, formatted H:MM:SS.
The model keeps the whole seconds; the rendering is injective on them. -/
def tsSeconds (fps : ℚ) (frame : Nat) : Nat :=
  (⌊(frame : ℚ) / max fps 1⌋).toNat

/- ===================================================================
   Person detection — src/src/ai_detection.py
   =================================================================== -/

/-- `_calculate_similarity_percentage` (ai_detection.py lines 31-47):
convert a face distance to a similarity percentage. -/
def _calculate_similarity_percentage (distance : ℚ) (tolerance : ℚ) : ℚ :=
  if distance ≤ tolerance then
    min 100 (70 + (1 - distance / tolerance) * 30)
  else
    max 0 (70 * (1 - (distance - tolerance) / tolerance))

/-- One face encoding found in a person box, abstracted to what the code
reads off it: for each reference person's name, the minimum
`face_recognition.face_distance` of this encoding to that person's
reference encodings (ai_detection.py lines 160-163). -/
abbrev FaceEnc := List (String × ℚ)

/-- A person box's face-extraction result: `Except.error` models the
`try ... except` around `face_locations`/`face_encodings`
(ai_detection.py lines 148-153), which on failure sets `encs = []`. -/
def boxEncs : Except Unit (List FaceEnc) → List FaceEnc
  | Except.error _ => []
  | Except.ok encs => encs

/-- Inner body of the candidate loop (ai_detection.py lines 159-171): a
candidate replaces the best match so far iff its distance is within
tolerance and its similarity strictly exceeds the best similarity. -/
def matchStep (tolerance : ℚ) (acc : Option String × ℚ)
    (cand : String × ℚ) : Option String × ℚ :=
  if cand.2 ≤ tolerance ∧
      acc.2 < _calculate_similarity_percentage cand.2 tolerance then
    (some cand.1, _calculate_similarity_percentage cand.2 tolerance)
  else acc

/-- The `found`/`best_similarity` pair after the nested loops over all
encodings and reference people, starting from `(None, 0)`
(ai_detection.py lines 155-171). -/
def bestFaceMatch (tolerance : ℚ) (encs : List FaceEnc) :
    Option String × ℚ :=
  encs.foldl (fun acc enc => enc.foldl (matchStep tolerance) acc) (none, 0)

/-- `d.setdefault(k, []).append(v)` on an insertion-ordered dict
(ai_detection.py lines 179-180). -/
def logAppend {α : Type} (k : String) (v : α) :
    List (String × List α) → List (String × List α)
  | [] => [(k, [v])]
  | (k', vs) :: rest =>
    if k' = k then (k', vs ++ [v]) :: rest else (k', vs) :: logAppend k v rest

/-- `{n: [] for n in known_names}` (ai_detection.py lines 95-96). -/
def initLog (α : Type) (names : List String) : List (String × List α) :=
  names.map (fun n => (n, []))

/-- Loop state of `run_ai_detection`: `frame_idx`, `detection_log`,
`similarity_scores`. -/
structure AIState : Type where
  frame_idx : Nat
  detection_log : List (String × List Nat)
  similarity_scores : List (String × List ℚ)
deriving DecidableEq, Repr

/-- Processing of one frame of `run_ai_detection` with `frame_skip = 1`
(ai_detection.py lines 102-184): increment `frame_idx`, then for each
person box extract face encodings (empty on detector failure), compute the
best reference match, and when one is found log its timestamp and
similarity under the matched name. -/
def aiFrameStep (tolerance fps : ℚ) (st : AIState)
    (boxes : List (Except Unit (List FaceEnc))) : AIState :=
  let idx := st.frame_idx + 1
  let ts := tsSeconds fps idx
  let r := boxes.foldl
    (fun (lg : List (String × List Nat) × List (String × List ℚ)) box =>
      let m := bestFaceMatch tolerance (boxEncs box)
      match m.1 with
      | none => lg
      | some name => (logAppend name ts lg.1, logAppend name m.2 lg.2))
    (st.detection_log, st.similarity_scores)
  ⟨idx, r.1, r.2⟩

/-- Insert into a sorted duplicate-free list, keeping it so. -/
def sortedInsert (x : Nat) : List Nat → List Nat
  | [] => [x]
  | y :: ys =>
    if x = y then y :: ys
    else if x ≤ y then x :: y :: ys
    else y :: sortedInsert x ys

/-- Python `sorted(set(v))` on whole-second timestamps
(ai_detection.py line 207). -/
def sortDedup (l : List Nat) : List Nat := l.foldr sortedInsert []

/-- `sum(scores) / len(scores)` with 0 for an empty list
(ai_detection.py lines 197-202). -/
def avgOf (l : List ℚ) : ℚ :=
  if l = [] then 0 else l.sum / l.length

/-- The dictionary `run_ai_detection` returns (ai_detection.py lines
204-214), omitting only the output-file path strings: per-person
deduplicated sorted timestamps, the detailed similarity scores, the
per-person average similarity, the frame count and the fps. There is no
field of any kind counting degraded or failed frames. -/
structure AISummary : Type where
  detections : List (String × List Nat)
  similarity_scores : List (String × List ℚ)
  avg_similarities : List (String × ℚ)
  frames : Nat
  fps : ℚ
deriving DecidableEq, Repr

/-- `run_ai_detection` (ai_detection.py lines 50-214) over a stream of
frames, each a list of person boxes with their face-extraction results. -/
def run_ai_detection (tolerance fps : ℚ) (names : List String)
    (frames : List (List (Except Unit (List FaceEnc)))) : AISummary :=
  let st := frames.foldl (aiFrameStep tolerance fps)
    ⟨0, initLog Nat names, initLog ℚ names⟩
  { detections := st.detection_log.map (fun kv => (kv.1, sortDedup kv.2)),
    similarity_scores := st.similarity_scores,
    avg_similarities := st.similarity_scores.map (fun kv => (kv.1, avgOf kv.2)),
    frames := st.frame_idx,
    fps := fps }

/- ===================================================================
   Vehicle detection logging — src/src/car_detection.py
   =================================================================== -/

/-- Per-track entry of `vehicle_detections` (car_detection.py lines
147-152): vehicle type, list of logged timestamps, list of plates. -/
structure VehEntry : Type where
  vtype : String
  detections : List Nat
  plates : List String
deriving DecidableEq, Repr

/-- Lookup in an insertion-ordered association list (Python dict). -/
def alookup {α : Type} (k : Nat) : List (Nat × α) → Option α
  | [] => none
  | (k', v) :: rest => if k' = k then some v else alookup k rest

/-- Update/insert in an insertion-ordered association list: an existing
key keeps its position, a new key is appended at the end (Python dict
assignment). -/
def aset {α : Type} (k : Nat) (v : α) : List (Nat × α) → List (Nat × α)
  | [] => [(k, v)]
  | (k', v') :: rest =>
    if k' = k then (k', v) :: rest else (k', v') :: aset k v rest

/-- `d.get(k, default)`. -/
def alookupD {α : Type} (k : Nat) (d : α) (l : List (Nat × α)) : α :=
  (alookup k l).getD d

/-- Loop state of the vehicle logging in `run_car_detection`:
`vehicle_detections` and `last_seen_frames` (car_detection.py lines
121-126). The name `last_seen_frames` is the code's; it actually records
the last frame at which the track was *logged*, since it is only updated
inside the two logging branches (lines 155, 161). -/
structure VehLogState : Type where
  vehicle_detections : List (Nat × VehEntry)
  last_seen_frames : List (Nat × Nat)
deriving DecidableEq, Repr

/-- Logging of one vehicle observation `(frame_idx, track_id, type)`
(car_detection.py lines 139-161, plate handling aside): on first sighting
create the entry and log the timestamp; afterwards log a new timestamp
only when more than 30 frames have passed since the last logged frame
(the hardcoded literal 30 at line 159); otherwise the observation leaves
the state unchanged. -/
def vehLogStep (fps : ℚ) (st : VehLogState) (obs : Nat × Nat × String) :
    VehLogState :=
  let frame := obs.1
  let tid := obs.2.1
  let vty := obs.2.2
  let ts := tsSeconds fps frame
  match alookup tid st.vehicle_detections with
  | none =>
    ⟨st.vehicle_detections ++ [(tid, ⟨vty, [ts], []⟩)],
      aset tid frame st.last_seen_frames⟩
  | some e =>
    if 30 < frame - alookupD tid 0 st.last_seen_frames then
      ⟨aset tid ⟨e.vtype, e.detections ++ [ts], e.plates⟩
          st.vehicle_detections,
        aset tid frame st.last_seen_frames⟩
    else st

/-- The `vehicle_detections` dict after a stream of observations fed in
frame order. -/
def run_vehicle_log (fps : ℚ) (obs : List (Nat × Nat × String)) :
    List (Nat × VehEntry) :=
  (obs.foldl (vehLogStep fps) ⟨[], []⟩).vehicle_detections

/- ===================================================================
   Findings assembly — src/dashboard/app.py, "Process File" handler
   =================================================================== -/

/-- One entry of `report_data["findings"]` (app.py lines 394-404 and
416-426), keeping the fields the report uses. `time_sec` carries the
single `time_window` timestamp in whole seconds (its formatted H:MM:SS
string is injective on them). -/
structure Finding : Type where
  time_sec : Nat
  track_id : String
  object_type : String
  matched_offender_id : String
  similarity_score : ℚ
  verification_status : String
deriving DecidableEq, Repr

/-- The finding app.py builds for one logged vehicle timestamp
(app.py lines 416-426): `similarity_score` is 1.0 with plates else 0.5,
`verification_status` "verified" with plates else "unverified". -/
def vehicleFinding (tid : Nat) (e : VehEntry) (ts : Nat) : Finding :=
  { time_sec := ts,
    track_id := toString tid,
    object_type := e.vtype,
    matched_offender_id := "Vehicle_" ++ toString tid,
    similarity_score := if e.plates = [] then 1 / 2 else 1,
    verification_status := if e.plates = [] then "unverified" else "verified" }

/-- The vehicle findings of the "Process File" handler (app.py lines
407-426): one finding per entry of `vehicle_detections` and per *distinct*
logged timestamp (`for detection_time in set(detection_times)`; a Python
set is unordered, modelled as `List.dedup`). -/
def vehicle_findings (fps : ℚ) (obs : List (Nat × Nat × String)) :
    List Finding :=
  (run_vehicle_log fps obs).flatMap
    (fun kv => (kv.2.detections.dedup).map (vehicleFinding kv.1 kv.2))

/- ===================================================================
   Report assembly — src/dashboard/generate_report.py
   =================================================================== -/

/-- Order in which `generate_report` emits the rows of the Findings table
(generate_report.py lines 190-237): all findings whose `object_type` is
not `"Person"` first, then all `"Person"` findings, each group in input
order. Tamper events are never part of this list — they are rendered in
the separate Tamper Detection section (lines 292-326). -/
def findings_table_order (findings : List Finding) : List Finding :=
  findings.filter (fun f => ! (f.object_type == "Person"))
    ++ findings.filter (fun f => f.object_type == "Person")

/-- The slice of `report_data` that the Digital Signatures section reads
(generate_report.py lines 355-372), next to the report content fields that
C4 relates it to. `signatures` models the `report_data["signatures"]`
dict; app.py always passes `{}` (app.py line 369). -/
structure ReportData : Type where
  report_id : String
  case_id : String
  findings : List Finding
  tamper_flag_times : List Nat
  signatures : List (String × String)
deriving DecidableEq, Repr

/-- Python `d.get(k, default)` on a string-keyed dict. -/
def dictGetD (m : List (String × String)) (k d : String) : String :=
  match m.find? (fun kv => kv.1 == k) with
  | none => d
  | some kv => kv.2

/-- Python `str(x)[:n] + "..."` (generate_report.py lines 359-360). -/
def truncDots (n : Nat) (s : String) : String := s.take n ++ "..."

/-- The two rows of the Digital Signatures table (generate_report.py lines
358-361): they echo `report_data["signatures"]` — `generate_report`
computes no hash of the report content and never calls
`generate_self_signed_cert` (the `temp_story` copied "for hash
calculation" at line 352 is never used). -/
def signature_rows (rd : ReportData) : List (List String) :=
  [["Report SHA256:", truncDots 50 (dictGetD rd.signatures "report_sha256" "N/A")],
   ["Certificate Subject:",
     truncDots 40 (dictGetD rd.signatures "signing_cert_subject" "N/A")]]

/- ===================================================================
   Pipeline driver — src/dashboard/app.py, "Process File" handler
   =================================================================== -/

/-- Observable outcome of one run of the "Process File" handler, as far as
the ledger-append step influences it. -/
structure PipelineRun : Type where
  warnings : List String
  person_detection_ran : Bool
  car_detection_ran : Bool
  tamper_detection_ran : Bool
  report_generated : Bool
  report_sha256 : String
deriving DecidableEq, Repr

/-- Control flow of the handler around the ledger append (app.py lines
265-272 and onward): the append is wrapped in `try/except` whose handler
only records `st.warning("Metadata logging failed: ...")`; person
detection (lines 286-307), car detection (lines 310-330), tamper detection
(lines 339-345) and report generation (lines 445-451) all run afterwards
in both cases, and the report's evidence `sha256` falls back to `"N/A"`
when the append raised (line 358). -/
def process_file_handler (ledger_append : Except String String) :
    PipelineRun :=
  match ledger_append with
  | Except.ok sha => ⟨[], true, true, true, true, sha⟩
  | Except.error e =>
    ⟨["Metadata logging failed: " ++ e], true, true, true, true, "N/A"⟩

lemma tamperStep_none_active {p : Nat} {b : Bool} {s : TamperState}
    (h : (tamperStep p b s).2 = none) :
    ((tamperStep p b s).1).active = s.active := by
  rcases b with _ | _ <;>
    simp only [tamperStep, Bool.false_eq_true, if_false, if_true] at h ⊢ <;>
    split_ifs at h ⊢ <;> simp_all

lemma tamperStep_start {p : Nat} {b : Bool} {s : TamperState}
    (h : (tamperStep p b s).2 = some EventKind.CoverStart) :
    s.active = false ∧ ((tamperStep p b s).1).active = true := by
  rcases b with _ | _ <;>
    simp only [tamperStep, Bool.false_eq_true, if_false, if_true] at h ⊢ <;>
    split_ifs at h ⊢ <;> simp_all

lemma tamperStep_end {p : Nat} {b : Bool} {s : TamperState}
    (h : (tamperStep p b s).2 = some EventKind.CoverEnd) :
    s.active = true ∧ ((tamperStep p b s).1).active = false := by
  rcases b with _ | _ <;>
    simp only [tamperStep, Bool.false_eq_true, if_false, if_true] at h ⊢ <;>
    split_ifs at h ⊢ <;> simp_all

lemma tamperInv_step {p : Nat} (hp : 1 ≤ p) (b : Bool) (s : TamperState)
    (_h : TamperInv p s) : TamperInv p (tamperStep p b s).1 := by
  unfold TamperInv at _h ⊢
  rcases b with _ | _ <;>
    simp only [tamperStep, Bool.false_eq_true, if_false, if_true] <;>
    split_ifs <;> intro ha <;> simp_all <;> omega

lemma runTamperRawFrom_eq_map (p : Nat) :
    ∀ (bads : List Bool) (s : TamperState) (i : Nat),
      runTamperRawFrom p s i bads = (runTamperFrom p s i bads).map Prod.fst := by
  intro bads
  induction bads with
  | nil => intro s i; rfl
  | cons b rest ih =>
    intro s i
    simp only [runTamperRawFrom, runTamperFrom]
    rcases h : (tamperStep p b s).2 with _ | k
    · exact ih _ _
    · simp [ih]

lemma runTamperFrom_kind (p : Nat) :
    ∀ (bads : List Bool) (s : TamperState) (i j : Nat) (e : Nat × EventKind),
      (runTamperFrom p s i bads).get? j = some e →
      e.2 = if (j % 2 = 0) ↔ (s.active = false) then EventKind.CoverStart
            else EventKind.CoverEnd := by
  intro bads
  induction bads with
  | nil => intro s i j e h; simp [runTamperFrom] at h
  | cons b rest ih =>
    intro s i j e h
    simp only [runTamperFrom] at h
    rcases hstep : (tamperStep p b s).2 with _ | k
    · simp only [hstep] at h
      rw [ih _ _ _ _ h, tamperStep_none_active hstep]
    · simp only [hstep] at h
      rcases j with _ | j
      · simp only [List.get?] at h
        rcases Option.some_injective _ h with rfl
        rcases k with _ | _
        · rcases tamperStep_start hstep with ⟨ha, _⟩
          simp [ha]
        · rcases tamperStep_end hstep with ⟨ha, _⟩
          simp [ha]
      · simp only [List.get?] at h
        have := ih (tamperStep p b s).1 (i + 1) j e h
        rw [this]
        rcases k with _ | _
        · rcases tamperStep_start hstep with ⟨ha, ha'⟩
          rw [ha, ha']
          by_cases hj : j % 2 = 0
          · have h2 : ¬ ((j + 1) % 2 = 0) := by omega
            simp [hj, h2]
          · have h2 : (j + 1) % 2 = 0 := by omega
            simp [hj, h2]
        · rcases tamperStep_end hstep with ⟨ha, ha'⟩
          rw [ha, ha']
          by_cases hj : j % 2 = 0
          · have h2 : ¬ ((j + 1) % 2 = 0) := by omega
            simp [hj, h2]
          · have h2 : (j + 1) % 2 = 0 := by omega
            simp [hj, h2]

lemma runTamperFrom_count (p : Nat) :
    ∀ (bads : List Bool) (s : TamperState) (i : Nat),
      ((runTamperFrom p s i bads).map Prod.snd).count EventKind.CoverEnd ≤
        ((runTamperFrom p s i bads).map Prod.snd).count EventKind.CoverStart
          + (if s.active = true then 1 else 0) := by
  intro bads
  induction bads with
  | nil => intro s i; simp [runTamperFrom]
  | cons b rest ih =>
    intro s i
    simp only [runTamperFrom]
    rcases hstep : (tamperStep p b s).2 with _ | k
    · have := ih (tamperStep p b s).1 (i + 1)
      rwa [tamperStep_none_active hstep] at this
    · rcases k with _ | _
      · rcases tamperStep_start hstep with ⟨ha, ha'⟩
        have := ih (tamperStep p b s).1 (i + 1)
        rw [ha'] at this
        simp only [ha, List.map_cons, List.count_cons]
        simp_all
      · rcases tamperStep_end hstep with ⟨ha, ha'⟩
        have := ih (tamperStep p b s).1 (i + 1)
        rw [ha'] at this
        simp only [ha, List.map_cons, List.count_cons]
        simp_all

/-- C1: the tamper state machine is edge-triggered: it starts in Normal
(`cover_active = false`) with counter 0; the consecutive-bad counter
increments on each bad sample and resets to 0 on a good one; starting from
any state satisfying the hysteresis invariant (which holds initially and is
preserved), while Normal it transitions to Covered and emits a CoverStart
exactly when the counter first reaches `persistence_samples`, while Covered
it transitions to Normal and emits a CoverEnd exactly on the first good
sample, and no other sample emits an event. -/
theorem C1_tamper_state_machine_edge_triggered (p : Nat) (hp : 1 ≤ p) :
    (initTamperState.counter = 0 ∧ initTamperState.active = false)
    ∧ (∀ (b : Bool) (s : TamperState),
        ((tamperStep p b s).1).counter = if b then s.counter + 1 else 0)
    ∧ TamperInv p initTamperState
    ∧ (∀ (b : Bool) (s : TamperState),
        TamperInv p s → TamperInv p (tamperStep p b s).1)
    ∧ (∀ (b : Bool) (s : TamperState), TamperInv p s → s.active = false →
        ((b = true ∧ s.counter + 1 = p) →
          tamperStep p b s = (⟨p, true⟩, some EventKind.CoverStart))
        ∧ (¬ (b = true ∧ s.counter + 1 = p) →
          tamperStep p b s = (⟨if b then s.counter + 1 else 0, false⟩, none)))
    ∧ (∀ (b : Bool) (s : TamperState), s.active = true →
        (b = false → tamperStep p b s = (⟨0, false⟩, some EventKind.CoverEnd))
        ∧ (b = true → tamperStep p b s = (⟨s.counter + 1, true⟩, none))) := by
  refine ⟨⟨rfl, rfl⟩, ?_, ?_, ?_, ?_, ?_⟩
  · intro b s
    rcases b with _ | _ <;>
      simp only [tamperStep, Bool.false_eq_true, if_false, if_true] <;>
      split_ifs <;> rfl
  · intro h
    simpa [initTamperState] using hp
  · intro b s h
    exact tamperInv_step hp b s h
  · intro b s hInv hact
    constructor
    · rintro ⟨hb, hc⟩
      subst hb
      simp only [tamperStep, if_true]
      rw [if_pos ⟨by omega, hact⟩, hc]
    · intro hn
      rcases hb : b with _ | _
      · subst hb
        have h1 : ¬ (p ≤ 0 ∧ s.active = false) := by
          rintro ⟨h0, _⟩; omega
        simp only [tamperStep, Bool.false_eq_true, if_false]
        rw [if_neg h1]
        simp [hact]
      · subst hb
        simp only [true_and] at hn
        have hc' := hInv hact
        have h1 : ¬ (p ≤ s.counter + 1 ∧ s.active = false) := by
          rintro ⟨hle, _⟩; omega
        have h2 : ¬ (s.active = true ∧ s.counter + 1 = 0) := by
          rintro ⟨_, hc0⟩; omega
        simp only [tamperStep, if_true]
        rw [if_neg h1, if_neg h2, hact]
  · intro b s hact
    constructor
    · intro hb
      subst hb
      have h1 : ¬ (p ≤ 0 ∧ s.active = false) := by
        rintro ⟨h0, _⟩; omega
      simp only [tamperStep, Bool.false_eq_true, if_false]
      rw [if_neg h1]
      simp [hact]
    · intro hb
      subst hb
      have h1 : ¬ (p ≤ s.counter + 1 ∧ s.active = false) := by
        rintro ⟨_, hA⟩; rw [hact] at hA; cases hA
      have h2 : ¬ (s.active = true ∧ s.counter + 1 = 0) := by
        rintro ⟨_, hc0⟩; omega
      simp only [tamperStep, if_true]
      rw [if_neg h1, if_neg h2, hact]

/-- Witness for C1 at the concrete persistence value 3. -/
theorem C1_tamper_state_machine_edge_triggered_witness :
    1 ≤ 3 ∧
    ((initTamperState.counter = 0 ∧ initTamperState.active = false)
    ∧ (∀ (b : Bool) (s : TamperState),
        ((tamperStep 3 b s).1).counter = if b then s.counter + 1 else 0)
    ∧ TamperInv 3 initTamperState
    ∧ (∀ (b : Bool) (s : TamperState),
        TamperInv 3 s → TamperInv 3 (tamperStep 3 b s).1)
    ∧ (∀ (b : Bool) (s : TamperState), TamperInv 3 s → s.active = false →
        ((b = true ∧ s.counter + 1 = 3) →
          tamperStep 3 b s = (⟨3, true⟩, some EventKind.CoverStart))
        ∧ (¬ (b = true ∧ s.counter + 1 = 3) →
          tamperStep 3 b s = (⟨if b then s.counter + 1 else 0, false⟩, none)))
    ∧ (∀ (b : Bool) (s : TamperState), s.active = true →
        (b = false → tamperStep 3 b s = (⟨0, false⟩, some EventKind.CoverEnd))
        ∧ (b = true → tamperStep 3 b s = (⟨s.counter + 1, true⟩, none)))) :=
  ⟨by norm_num, C1_tamper_state_machine_edge_triggered 3 (by norm_num)⟩

/-- C2: with `persistence_samples = 3`, a run of exactly 3 consecutive bad
samples followed by a good one yields exactly one CoverStart then one
CoverEnd in that order; a run of only 2 consecutive bad samples followed by
good samples yields no event; and the 10-sample metric stream whose samples
4–7 are bad (sharpness 0 against the code thresholds) yields a CoverStart
at sample 6 and a CoverEnd at sample 8 and nothing else. -/
theorem C2_persistence_three_scenarios :
    runTamperTagged 3 [true, true, true, false] =
      [(2, EventKind.CoverStart), (3, EventKind.CoverEnd)]
    ∧ runTamperTagged 3 [true, true, false, false, false] = []
    ∧ runTamperMetrics 3 LAP_VAR_THRESHOLD BRIGHTNESS_DROP
        [(10, 100), (10, 100), (10, 100), (10, 100), (0, 100), (0, 100),
         (0, 100), (0, 100), (10, 100), (10, 100)] =
      [(6, EventKind.CoverStart), (8, EventKind.CoverEnd)] := by
  refine ⟨by decide, by decide, ?_⟩
  norm_num [runTamperMetrics, runTamperTagged, metricsToBad, isBadSample,
    brightnessRatio, runTamperFrom, tamperStep, initTamperState,
    LAP_VAR_THRESHOLD, BRIGHTNESS_DROP]

/-- C10: over every metric stream, the emitted events strictly alternate:
events at even positions (1st, 3rd, ...) are CoverStart (Normal→Covered)
and events at odd positions are CoverEnd (Covered→Normal); consequently the
number of CoverEnd events never exceeds the number of CoverStart events.
The list `run_tamper_detection` actually returns is the same sequence
stripped to bare positions with no kind tag. -/
theorem C10_tamper_events_strictly_alternate (p : Nat)
    (lapThresh brightThresh : ℚ) (samples : List (ℚ × ℚ)) :
    (∀ (j : Nat) (e : Nat × EventKind),
      (runTamperMetrics p lapThresh brightThresh samples).get? j = some e →
      e.2 = if j % 2 = 0 then EventKind.CoverStart else EventKind.CoverEnd)
    ∧ ((runTamperMetrics p lapThresh brightThresh samples).map
        Prod.snd).count EventKind.CoverEnd ≤
      ((runTamperMetrics p lapThresh brightThresh samples).map
        Prod.snd).count EventKind.CoverStart
    ∧ run_tamper_detection p lapThresh brightThresh samples =
        (runTamperMetrics p lapThresh brightThresh samples).map Prod.fst := by
  refine ⟨?_, ?_, ?_⟩
  · intro j e h
    simp only [runTamperMetrics, runTamperTagged] at h
    have := runTamperFrom_kind p (metricsToBad lapThresh brightThresh samples)
      initTamperState 0 j e h
    simpa [initTamperState] using this
  · simp only [runTamperMetrics, runTamperTagged]
    have := runTamperFrom_count p (metricsToBad lapThresh brightThresh samples)
      initTamperState 0
    simpa [initTamperState] using this
  · simp only [run_tamper_detection, runTamperRaw, runTamperMetrics,
      runTamperTagged]
    exact runTamperRawFrom_eq_map p _ _ _

lemma runAppends_foldl (digest : List Nat → String) :
    ∀ (reqs : List AppendRequest) (L : List LedgerRow),
      reqs.foldl (fun acc req => (log_evidence digest acc req).2) L =
        L ++ reqs.map (mkLedgerRow digest) := by
  intro reqs
  induction reqs with
  | nil => intro L; simp
  | cons r rest ih =>
    intro L
    rw [List.foldl_cons, ih]
    simp [log_evidence]

/-- C3: after any sequence of appends, ledger verification of bytes `b`
returns true iff the digest of `b` equals the content hash recorded for
some previously appended request; it is true immediately after an append
of `b` itself (same run included); and append never rejects duplicates —
appending the same request twice always succeeds and adds two rows. -/
theorem C3_ledger_verify_membership (digest : List Nat → String)
    (reqs : List AppendRequest) (b : List Nat) (req : AppendRequest)
    (L : List LedgerRow) :
    (verify_file_from_bytes digest (runAppends digest reqs) b = true ↔
      ∃ r ∈ reqs, digest r.file_bytes = digest b)
    ∧ verify_file_from_bytes digest
        (log_evidence digest L { req with file_bytes := b }).2 b = true
    ∧ (log_evidence digest (log_evidence digest L req).2 req).2 =
        L ++ [mkLedgerRow digest req, mkLedgerRow digest req] := by
  refine ⟨?_, ?_, ?_⟩
  · simp [verify_file_from_bytes, runAppends, runAppends_foldl, mkLedgerRow,
      eq_comm]
  · simp [verify_file_from_bytes, log_evidence, mkLedgerRow]
  · simp [log_evidence]

lemma simLow {tol d : ℚ} (htol : 0 < tol) (h0 : 0 ≤ d) (hle : d ≤ tol) :
    _calculate_similarity_percentage d tol = 70 + 30 * (1 - d / tol) := by
  unfold _calculate_similarity_percentage
  rw [if_pos hle]
  have hdt : 0 ≤ d / tol := div_nonneg h0 htol.le
  have hx : (70 : ℚ) + (1 - d / tol) * 30 ≤ 100 := by nlinarith
  rw [min_eq_right hx]
  ring

lemma simHigh {tol d : ℚ} (hgt : tol < d) :
    _calculate_similarity_percentage d tol =
      max 0 (70 * (1 - (d - tol) / tol)) := by
  unfold _calculate_similarity_percentage
  rw [if_neg (not_le.mpr hgt)]

lemma simLow_ge70 {tol d : ℚ} (htol : 0 < tol) (h0 : 0 ≤ d) (hle : d ≤ tol) :
    70 ≤ _calculate_similarity_percentage d tol := by
  rw [simLow htol h0 hle]
  have : d / tol ≤ 1 := (div_le_one htol).mpr hle
  nlinarith

lemma simHigh_le70 {tol d : ℚ} (htol : 0 < tol) (hgt : tol < d) :
    _calculate_similarity_percentage d tol ≤ 70 := by
  rw [simHigh hgt]
  apply max_le (by norm_num)
  have : 0 ≤ (d - tol) / tol := div_nonneg (by linarith) htol.le
  nlinarith

/-- C6: on nonnegative distances and positive tolerance, the similarity
normalization satisfies s(0) = 100, s(tolerance) = 70,
s(2·tolerance) = 0, is monotonically non-increasing in the distance, and
equals 70 + 30·(1 − d/tolerance) for d ≤ tolerance and
max(0, 70·(1 − (d − tolerance)/tolerance)) for d > tolerance. -/
theorem C6_similarity_normalization (tolerance : ℚ) (htol : 0 < tolerance) :
    _calculate_similarity_percentage 0 tolerance = 100
    ∧ _calculate_similarity_percentage tolerance tolerance = 70
    ∧ _calculate_similarity_percentage (2 * tolerance) tolerance = 0
    ∧ (∀ d1 d2 : ℚ, 0 ≤ d1 → d1 ≤ d2 →
        _calculate_similarity_percentage d2 tolerance ≤
          _calculate_similarity_percentage d1 tolerance)
    ∧ (∀ d : ℚ, 0 ≤ d → d ≤ tolerance →
        _calculate_similarity_percentage d tolerance =
          70 + 30 * (1 - d / tolerance))
    ∧ (∀ d : ℚ, tolerance < d →
        _calculate_similarity_percentage d tolerance =
          max 0 (70 * (1 - (d - tolerance) / tolerance))) := by
  have htne : tolerance ≠ 0 := ne_of_gt htol
  refine ⟨?_, ?_, ?_, ?_, ?_, ?_⟩
  · rw [simLow htol le_rfl htol.le]
    norm_num
  · rw [simLow htol htol.le le_rfl]
    rw [div_self htne]
    ring
  · rw [simHigh (by linarith)]
    have : (2 * tolerance - tolerance) / tolerance = 1 := by
      rw [show 2 * tolerance - tolerance = tolerance by ring, div_self htne]
    rw [this]
    norm_num
  · intro d1 d2 h0 h12
    by_cases h1 : d1 ≤ tolerance
    · by_cases h2 : d2 ≤ tolerance
      · rw [simLow htol h0 h1, simLow htol (h0.trans h12) h2]
        have : d1 / tolerance ≤ d2 / tolerance := by
          apply div_le_div_of_nonneg_right h12 htol.le
        linarith
      · exact (simHigh_le70 htol (not_le.mp h2)).trans
          (simLow_ge70 htol h0 h1)
    · have hg1 : tolerance < d1 := not_le.mp h1
      have hg2 : tolerance < d2 := lt_of_lt_of_le hg1 h12
      rw [simHigh hg1, simHigh hg2]
      apply max_le_max le_rfl
      have : (d1 - tolerance) / tolerance ≤ (d2 - tolerance) / tolerance := by
        apply div_le_div_of_nonneg_right (by linarith) htol.le
      nlinarith
  · intro d h0 hle
    exact simLow htol h0 hle
  · intro d hgt
    exact simHigh hgt

/-- Witness for C6 at the concrete tolerance 1. -/
theorem C6_similarity_normalization_witness :
    (0 : ℚ) < 1 ∧
    (_calculate_similarity_percentage 0 1 = 100
    ∧ _calculate_similarity_percentage 1 1 = 70
    ∧ _calculate_similarity_percentage (2 * 1) 1 = 0
    ∧ (∀ d1 d2 : ℚ, 0 ≤ d1 → d1 ≤ d2 →
        _calculate_similarity_percentage d2 1 ≤
          _calculate_similarity_percentage d1 1)
    ∧ (∀ d : ℚ, 0 ≤ d → d ≤ 1 →
        _calculate_similarity_percentage d 1 = 70 + 30 * (1 - d / 1))
    ∧ (∀ d : ℚ, 1 < d →
        _calculate_similarity_percentage d 1 =
          max 0 (70 * (1 - (d - 1) / 1)))) :=
  ⟨by norm_num, C6_similarity_normalization 1 (by norm_num)⟩

set_option maxRecDepth 4000 in
/-- C4: what the code actually does in place of report integrity binding —
the Digital Signatures section of the generated report depends only on the
`signatures` dict passed in through `report_data` (so it is no function of
the finalized report content at all), and on the empty dict that app.py
always passes, both the "Report SHA256" and "Certificate Subject" cells
render the fallback `"N/A"` with the unconditional `"..."` suffix;
no hash is computed, no key is generated, nothing is signed. -/
theorem C4_no_report_hash_or_signing :
    (∀ (rid cid rid' cid' : String) (fs fs' : List Finding)
        (tf tf' : List Nat) (sigs : List (String × String)),
      signature_rows ⟨rid, cid, fs, tf, sigs⟩ =
        signature_rows ⟨rid', cid', fs', tf', sigs⟩)
    ∧ signature_rows ⟨"", "", [], [], []⟩ =
        [["Report SHA256:", "N/A..."], ["Certificate Subject:", "N/A..."]] := by
  constructor
  · intro rid cid rid' cid' fs fs' tf tf' sigs
    rfl
  · rfl

/-- C5 counterexample: when the ledger append raises (here with message
"ledger write failed"), the Process File handler still runs person
detection, car detection, tamper detection and report generation —
analysis is not stopped, contradicting the claim. -/
theorem C5_counterexample :
    (process_file_handler
        (Except.error "ledger write failed")).person_detection_ran = true
    ∧ (process_file_handler
        (Except.error "ledger write failed")).car_detection_ran = true
    ∧ (process_file_handler
        (Except.error "ledger write failed")).tamper_detection_ran = true
    ∧ (process_file_handler
        (Except.error "ledger write failed")).report_generated = true :=
  ⟨rfl, rfl, rfl, rfl⟩

/-- C5 amended: a failed ledger append is caught, a "Metadata logging
failed" warning is recorded, and the pipeline then proceeds to run all
analysis stages and generate the report, with the evidence hash reported
as "N/A". -/
theorem C5_append_failure_continues (e : String) :
    process_file_handler (Except.error e) =
      ⟨["Metadata logging failed: " ++ e], true, true, true, true, "N/A"⟩ :=
  rfl

/-- C8 counterexample: with a Person finding at second 1 and a vehicle
finding at second 5, the findings table lists the vehicle (time 5) before
the person (time 1): the start-time sequence [5, 1] is not
non-decreasing, and the claimed Person-before-Vehicle tie order is also
violated. -/
theorem C8_counterexample :
    findings_table_order
        [⟨1, "N/A", "Person", "Alice", 1, "unverified"⟩,
         ⟨5, "3", "car", "Vehicle_3", 1, "verified"⟩] =
      [⟨5, "3", "car", "Vehicle_3", 1, "verified"⟩,
       ⟨1, "N/A", "Person", "Alice", 1, "unverified"⟩]
    ∧ (findings_table_order
        [⟨1, "N/A", "Person", "Alice", 1, "unverified"⟩,
         ⟨5, "3", "car", "Vehicle_3", 1, "verified"⟩]).map
          (fun f => f.time_sec) = [5, 1]
    ∧ ¬ List.Sorted (fun a b : Nat => a ≤ b) [5, 1] := by
  refine ⟨rfl, rfl, ?_⟩
  decide

/-- C8 amended: the findings table is a permutation of the input findings
in which all non-Person findings come first and all Person findings come
second, each group in input order; no sorting by start time happens, and
tamper events are not part of this list at all. -/
theorem C8_vehicles_then_persons (fs : List Finding) :
    List.Perm (findings_table_order fs) fs
    ∧ findings_table_order fs =
        fs.filter (fun f => ! (f.object_type == "Person"))
          ++ fs.filter (fun f => f.object_type == "Person") := by
  constructor
  · have := List.filter_append_perm
      (fun f => ! (f.object_type == "Person")) fs
    simpa [Bool.not_not] using this
  · rfl

lemma aiFrameStep_error_eq_empty (tolerance fps : ℚ) (st : AIState) :
    aiFrameStep tolerance fps st [Except.error ()] =
      aiFrameStep tolerance fps st [Except.ok []] := rfl

lemma ai_foldl_frame_idx (tolerance fps : ℚ) :
    ∀ (frames : List (List (Except Unit (List FaceEnc)))) (st : AIState),
      (frames.foldl (aiFrameStep tolerance fps) st).frame_idx =
        st.frame_idx + frames.length := by
  intro frames
  induction frames with
  | nil => intro st; simp
  | cons fr rest ih =>
    intro st
    rw [List.foldl_cons, ih]
    simp [aiFrameStep]
    omega

/-- C9 amended: a frame on which the external face detector raises is
non-fatal — the run completes, the frame contributes zero observations,
and the returned summary is *identical* to that of a frame that genuinely
had no observations, so nothing in the final summary (whose frame counter
just counts all frames) records the degradation. -/
theorem C9_detector_failure_indistinguishable (tolerance fps : ℚ)
    (names : List String)
    (pre post : List (List (Except Unit (List FaceEnc)))) :
    run_ai_detection tolerance fps names (pre ++ [Except.error ()] :: post) =
      run_ai_detection tolerance fps names (pre ++ [Except.ok []] :: post)
    ∧ (run_ai_detection tolerance fps names
        (pre ++ [Except.error ()] :: post)).frames =
      pre.length + 1 + post.length := by
  constructor
  · unfold run_ai_detection
    rw [List.foldl_append, List.foldl_append, List.foldl_cons,
      List.foldl_cons, aiFrameStep_error_eq_empty]
  · unfold run_ai_detection
    simp only [ai_foldl_frame_idx]
    simp
    omega

/-- C9 counterexample: a run whose single frame fails in the detector
returns a summary equal, field for field, to the run whose single frame
had no observations — no degraded-frame counter is incremented or
surfaced anywhere in the summary, contradicting the claim. -/
theorem C9_counterexample :
    run_ai_detection (1 / 2) 1 ["alice"] [[Except.error ()]] =
      run_ai_detection (1 / 2) 1 ["alice"] [[Except.ok []]]
    ∧ run_ai_detection (1 / 2) 1 ["alice"] [[Except.error ()]] =
        ⟨[("alice", [])], [("alice", [])], [("alice", 0)], 1, 1⟩ := by
  constructor
  · rfl
  · rfl

/-- C7 amended: two observations of the same track are logged into a
single per-track entry: when the second comes more than 30 frames (the
hardcoded gap) after the first *logged* frame, its timestamp is appended
and one finding per distinct timestamp is produced (two findings when the
formatted timestamps differ); otherwise the second observation is dropped
entirely and exactly one finding results, carrying only the first
observation's timestamp — not a window spanning both. -/
theorem C7_two_observation_windowing (fps : ℚ) (f1 f2 tid : Nat)
    (vty : String) :
    vehicle_findings fps [(f1, tid, vty), (f2, tid, vty)] =
      if 30 < f2 - f1 then
        (List.dedup [tsSeconds fps f1, tsSeconds fps f2]).map
          (vehicleFinding tid ⟨vty, [tsSeconds fps f1, tsSeconds fps f2], []⟩)
      else [vehicleFinding tid ⟨vty, [tsSeconds fps f1], []⟩
        (tsSeconds fps f1)] := by
  unfold vehicle_findings run_vehicle_log
  simp only [List.foldl_cons, List.foldl_nil, vehLogStep, alookup, alookupD,
    aset, List.nil_append, if_pos, Option.getD]
  by_cases h : 30 < f2 - f1
  · simp [h, List.dedup]
  · simp [h, List.dedup_cons_of_not_mem]

/-- C7 counterexample: at 4 fps, observations of track 1 at frames 2 and
26 are separated by 24 < 30 frames; they yield exactly one finding, but
its time window is the single timestamp 0:00:00 of the first observation;
the second observation's timestamp 0:00:06 appears in no finding, so the
claimed window spanning both timestamps does not exist. -/
theorem C7_counterexample :
    vehicle_findings 4 [(2, 1, "car"), (26, 1, "car")] =
      [⟨0, "1", "car", "Vehicle_1", 1 / 2, "unverified"⟩]
    ∧ tsSeconds 4 2 = 0
    ∧ tsSeconds 4 26 = 6
    ∧ ∀ f ∈ vehicle_findings 4 [(2, 1, "car"), (26, 1, "car")],
        f.time_sec ≠ 6 := by
  have h2 : tsSeconds 4 2 = 0 := by
    have h : max (4 : ℚ) 1 = 4 := by norm_num
    rw [tsSeconds, h]
    norm_num
  have h26 : tsSeconds 4 26 = 6 := by
    have h : max (4 : ℚ) 1 = 4 := by norm_num
    rw [tsSeconds, h]
    norm_num
    rfl
  have hfind : vehicle_findings 4 [(2, 1, "car"), (26, 1, "car")] =
      [⟨0, "1", "car", "Vehicle_1", 1 / 2, "unverified"⟩] := by
    unfold vehicle_findings run_vehicle_log
    simp only [List.foldl_cons, List.foldl_nil, vehLogStep, alookup, alookupD,
      aset, List.nil_append, Option.getD, h2, h26]
    norm_num [vehicleFinding]
    exact ⟨rfl, rfl⟩
  refine ⟨hfind, h2, h26, ?_⟩
  rw [hfind]
  intro f hf
  simp only [List.mem_singleton] at hf
  rw [hf]
  simp

end Corinthian
